import Mathlib

/-!
Shallow embedding of the stellar-as-a-service wallet backend.

The repository is a Go service with three operations on a remote Stellar
ledger: CreateWallet, GetWalletDetails and TransferFunds (services layer),
HTTP controllers that map service errors to status codes, and a main
function that selects the Horizon client and network from configuration.

External collaborators (the keypair library, the Horizon client, and the
fallibility of the transaction-building and signing SDK calls) are modelled
as an explicit environment record of oracles; each service function is a
pure function of the environment, the configuration and its inputs, and it
returns both its result (success value or error message string, exactly the
strings the Go code builds) and the ordered trace of network calls it
performed. The Go standard library function strconv.ParseFloat, which the
amount validation depends on, is modelled concretely, including the IEEE
special values NaN and the infinities (hexadecimal float literals and
out-of-range rounding are omitted; no theorem below depends on them).
-/

namespace StellarWallet

/-- Full keypair: public address plus secret seed, as produced by
keypair.Random and keypair.ParseFull. -/
structure Full where
  address : String
  seed : String
deriving DecidableEq

/-- Result of keypair.Parse: either a full keypair or an address-only
keypair (the Go KP interface with its two implementations). -/
inductive KP where
  | full (kp : Full)
  | addressOnly (address : String)
deriving DecidableEq

/-- Address of a parsed keypair, as the Go Address method. -/
def KP.address : KP → String
  | .full kp => kp.address
  | .addressOnly a => a

/-- One balance entry of a Horizon account record. -/
structure Balance where
  btype : String
  code : String
  issuer : String
  balance : String
deriving DecidableEq

/-- Horizon account record: the fields the service reads. -/
structure Account where
  accountID : String
  sequence : Int
  balances : List Balance
deriving DecidableEq

/-- Credit asset (code and issuer), as txnbuild.CreditAsset. -/
structure CreditAsset where
  code : String
  issuer : String
deriving DecidableEq

/-- Application configuration, as the Config struct of the services
package: network name, master secret and the designated USDC asset. The
Horizon client pointer is part of the environment model below. -/
structure Config where
  network : String
  masterSecret : String
  usdcAsset : CreditAsset
deriving DecidableEq

/-- Response of wallet creation, as models.WalletResponse. -/
structure WalletResponse where
  publicKey : String
  secretKey : String
  message : String
deriving DecidableEq

/-- One entry of the balances list of a wallet-details response. -/
structure BalanceEntry where
  assetType : String
  assetCode : String
  issuer : String
  balance : String
deriving DecidableEq

/-- Response of wallet details, as models.WalletDetailsResponse. -/
structure WalletDetailsResponse where
  publicKey : String
  existsFlag : Bool
  balances : List BalanceEntry
  sequenceNumber : Int
deriving DecidableEq

/-- Request body of the transfer endpoint, as models.TransferRequest. -/
structure TransferRequest where
  fromSecretKey : String
  toPublicKey : String
  amount : String
deriving DecidableEq

/-- Response of the transfer endpoint, as models.TransferResponse. -/
structure TransferResponse where
  transactionHash : String
  message : String
deriving DecidableEq

/-- Operations the service builds, as the txnbuild operation structs the
repository instantiates. -/
inductive Operation where
  | createAccount (destination : String) (amount : String)
  | changeTrust (assetCode : String) (assetIssuer : String)
  | payment (destination : String) (amount : String) (assetCode : String) (assetIssuer : String)
deriving DecidableEq

/-- Transaction envelope, as assembled by txnbuild.NewTransaction from the
parameters the repository passes and then signed by tx.Sign: source
account, sequence number, ordered operation list, base fee, time bounds,
and after signing the network passphrase and the seeds of the signers in
order. -/
structure Transaction where
  sourceAccountID : String
  seqNum : Int
  operations : List Operation
  baseFee : Int
  minTime : Int
  maxTime : Int
  networkPassphrase : String
  signatures : List String
deriving DecidableEq

/-- A network call the service performs against Horizon. -/
inductive NetCall where
  | fetchAccount (accountID : String)
  | submitTx (tx : Transaction)
deriving DecidableEq

/-- Result of horizonclient.AccountDetail: success, a Horizon problem
error with its HTTP status code and error text, or another error with its
error text. -/
inductive FetchResult where
  | ok (a : Account)
  | horizonErr (statusCode : Nat) (errText : String)
  | otherErr (errText : String)
deriving DecidableEq

/-- Result of horizonclient.SubmitTransaction: success with the confirmed
hash, a Horizon problem error carrying the node detail text, or another
error with its error text. -/
inductive SubmitResult where
  | ok (hash : String)
  | horizonErr (problemDetail : String) (errText : String)
  | otherErr (errText : String)
deriving DecidableEq

/-- Model of the float64 value returned by strconv.ParseFloat: not a
number, a signed infinity, or a finite value represented exactly as a
rational. -/
inductive GoFloat where
  | nan
  | inf (neg : Bool)
  | finite (q : ℚ)
deriving DecidableEq

/-- Model of the Go comparison f <= 0 on float64 under IEEE semantics:
false on NaN, the sign on infinities, the rational comparison on finite
values. -/
def goFloatLE0 : GoFloat → Bool
  | .nan => false
  | .inf neg => neg
  | .finite q => decide (q ≤ 0)

/-- Lower-case a character list. -/
def toLowerList (l : List Char) : List Char := l.map Char.toLower

/-- Recognizer for the Go special words inf and infinity, case
insensitive, after the sign has been stripped. -/
def isInfWord (l : List Char) : Bool :=
  decide (toLowerList l = "inf".data) || decide (toLowerList l = "infinity".data)

/-- Recognizer for the Go special word nan, case insensitive, with no
sign allowed. -/
def isNanWord (l : List Char) : Bool := decide (toLowerList l = "nan".data)

/-- Underscore placement check of Go numeric literals: every underscore
must have a decimal digit immediately before and after it. The first
argument is the previous character. -/
def usOKAux : Char → List Char → Bool
  | prev, c :: rest =>
      if c = '_' then
        prev.isDigit && (match rest with | d :: _ => d.isDigit | [] => false) && usOKAux c rest
      else usOKAux c rest
  | _, [] => true

/-- Underscore placement check on a whole character list. -/
def underscoresOK (l : List Char) : Bool := usOKAux 'x' l

/-- Value of a decimal digit run; none if a non-digit occurs. -/
def decValAux : List Char → Nat → Option Nat
  | [], acc => some acc
  | c :: rest, acc =>
      if c.isDigit then decValAux rest (acc * 10 + (c.toNat - 48)) else none

/-- Value of a decimal digit run starting from zero. -/
def decVal (l : List Char) : Option Nat := decValAux l 0

/-- Split a character list at the first occurrence of a separator. -/
def splitAtChar (sep : Char) : List Char → (List Char × Option (List Char))
  | [] => ([], none)
  | c :: rest =>
      if c = sep then ([], some rest)
      else
        let (a, b) := splitAtChar sep rest
        (c :: a, b)

/-- Split a character list at the first exponent marker e or E. -/
def splitAtExp : List Char → (List Char × Option (List Char))
  | [] => ([], none)
  | c :: rest =>
      if c = 'e' || c = 'E' then ([], some rest)
      else
        let (a, b) := splitAtExp rest
        (c :: a, b)

/-- Parse an unsigned decimal mantissa with optional fraction; at least
one digit must be present. -/
def parseMantissa (l : List Char) : Option ℚ :=
  match splitAtChar '.' l with
  | (ip, none) =>
      if ip.isEmpty then none else (decVal ip).map (fun n => (n : ℚ))
  | (ip, some fp) =>
      if ip.isEmpty && fp.isEmpty then none
      else
        match decVal ip, decVal fp with
        | some n, some m => some ((n : ℚ) + (m : ℚ) / (10 : ℚ) ^ fp.length)
        | _, _ => none

/-- Parse an optionally signed decimal exponent; at least one digit must
be present. -/
def parseExp (l : List Char) : Option Int :=
  let (neg, body) :=
    match l with
    | '+' :: r => (false, r)
    | '-' :: r => (true, r)
    | _ => (false, l)
  if body.isEmpty then none
  else (decVal body).map (fun n => if neg then -(n : Int) else (n : Int))

/-- Parse an unsigned decimal number with optional exponent. -/
def parseDec (l : List Char) : Option ℚ :=
  match splitAtExp l with
  | (mant, none) => parseMantissa mant
  | (mant, some ex) =>
      match parseMantissa mant, parseExp ex with
      | some q, some e => some (q * (10 : ℚ) ^ e)
      | _, _ => none

/-- Model of strconv.ParseFloat(s, 64): the special words NaN (unsigned)
and Inf or Infinity (optionally signed) case insensitive, otherwise an
optionally signed decimal with optional fraction and exponent, with the
Go underscore placement rule. -/
def goParseFloat (s : String) : Option GoFloat :=
  let l := s.data
  if isNanWord l then some .nan
  else
    let (neg, body) :=
      match l with
      | '+' :: rest => (false, rest)
      | '-' :: rest => (true, rest)
      | _ => (false, l)
    if isInfWord body then some (.inf neg)
    else if underscoresOK body then
      match parseDec (body.filter (fun c => c ≠ '_')) with
      | some q => some (.finite (if neg then -q else q))
      | none => none
    else none

/-- The two Horizon clients main selects between. -/
inductive HorizonClient where
  | testnet
  | pubnet
deriving DecidableEq

/-- Selection of the Horizon client in main: the testnet client exactly
when the configured network string equals testnet, the public client
otherwise. -/
def selectHorizonClient (networkStr : String) : HorizonClient :=
  if networkStr = "testnet" then .testnet else .pubnet

/-- The Stellar testnet network passphrase constant of the SDK. -/
def TestNetworkPassphrase : String := "Test SDF Network ; September 2015"

/-- The Stellar public network passphrase constant of the SDK. -/
def PublicNetworkPassphrase : String := "Public Global Stellar Network ; September 2015"

/-- Passphrase selection as written inline in CreateWallet and
TransferFunds: testnet passphrase exactly when the configured network
string equals testnet, the public passphrase otherwise. -/
def networkPassphraseFor (networkStr : String) : String :=
  if networkStr = "testnet" then TestNetworkPassphrase else PublicNetworkPassphrase

/-- Model of txnbuild.NewTransaction at the parameter set the repository
passes in both CreateWallet and TransferFunds: IncrementSequenceNum true,
so the source sequence is incremented exactly once per envelope; the
operation list is kept in the given order; BaseFee is MinBaseFee (100);
the time bounds are NewTimeout(300), that is minimum time zero and
maximum time the current time plus 300 seconds. -/
def buildTransaction (source : Account) (ops : List Operation) (now : Int) : Transaction :=
  { sourceAccountID := source.accountID
    seqNum := source.sequence + 1
    operations := ops
    baseFee := 100
    minTime := 0
    maxTime := now + 300
    networkPassphrase := ""
    signatures := [] }

/-- Model of tx.Sign: binds the envelope to the network passphrase and
records one signature per signing key, in order. -/
def signTx (tx : Transaction) (passphrase : String) (signers : List String) : Transaction :=
  { tx with networkPassphrase := passphrase, signatures := signers }

/-- Environment of external collaborators: the current time, the keypair
library (keypair.Random with the error text on entropy failure,
keypair.Parse with the error text on failure, keypair.ParseFull and
keypair.ParseAddress whose error texts the repository discards), the
Horizon client calls AccountDetail and SubmitTransaction, and oracles for
the fallibility of ToChangeTrustAsset, NewTransaction and Sign, each
returning the error text when the call fails. -/
structure Env where
  now : Int
  randomKP : Except String Full
  parseKP : String → Except String KP
  parseFull : String → Option Full
  parseAddress : String → Option String
  accountDetail : String → FetchResult
  submit : Transaction → SubmitResult
  toChangeTrustErr : Option String
  buildErr : Transaction → Option String
  signErr : Transaction → Option String

/-- Embedding of WalletService.CreateWallet: generate a keypair, parse
the master secret, build the three operations, fetch the master account,
build the envelope, select the passphrase, require the master key to be a
full keypair, sign with master and new key, submit, and return the
response; every early return carries the exact error string of the Go
code and the trace of network calls performed so far. -/
def CreateWallet (env : Env) (cfg : Config) :
    Except String WalletResponse × List NetCall :=
  match env.randomKP with
  | .error e => (.error ("failed to generate keypair: " ++ e), [])
  | .ok kp =>
    let publicKey := kp.address
    let secretKey := kp.seed
    match env.parseKP cfg.masterSecret with
    | .error e => (.error ("invalid master secret key: " ++ e), [])
    | .ok masterKP =>
      let createAccountOp := Operation.createAccount publicKey "0.5"
      match env.toChangeTrustErr with
      | some e => (.error ("failed to create USDC trustline asset: " ++ e), [])
      | none =>
        let trustOp := Operation.changeTrust cfg.usdcAsset.code cfg.usdcAsset.issuer
        let paymentOp := Operation.payment publicKey "100" cfg.usdcAsset.code cfg.usdcAsset.issuer
        match env.accountDetail masterKP.address with
        | .horizonErr _ e =>
            (.error ("failed to fetch master account details: " ++ e),
             [.fetchAccount masterKP.address])
        | .otherErr e =>
            (.error ("failed to fetch master account details: " ++ e),
             [.fetchAccount masterKP.address])
        | .ok sourceAccount =>
          let tx := buildTransaction sourceAccount [createAccountOp, trustOp, paymentOp] env.now
          match env.buildErr tx with
          | some e =>
              (.error ("failed to build transaction: " ++ e), [.fetchAccount masterKP.address])
          | none =>
            let networkPassphrase := networkPassphraseFor cfg.network
            match masterKP with
            | .addressOnly _ =>
                (.error "master key is not a full keypair", [.fetchAccount masterKP.address])
            | .full masterFullKP =>
              let signedTx := signTx tx networkPassphrase [masterFullKP.seed, kp.seed]
              match env.signErr signedTx with
              | some e =>
                  (.error ("failed to sign transaction: " ++ e),
                   [.fetchAccount masterKP.address])
              | none =>
                match env.submit signedTx with
                | .horizonErr detail _ =>
                    (.error ("transaction failed: " ++ detail),
                     [.fetchAccount masterKP.address, .submitTx signedTx])
                | .otherErr e =>
                    (.error ("failed to submit transaction: " ++ e),
                     [.fetchAccount masterKP.address, .submitTx signedTx])
                | .ok hash =>
                    (.ok { publicKey := publicKey
                           secretKey := secretKey
                           message := "Wallet created, trusted USDC, and funded successfully. Hash: " ++ hash },
                     [.fetchAccount masterKP.address, .submitTx signedTx])

/-- Embedding of WalletService.GetWalletDetails: validate the address
format, fetch the account, return the does-not-exist shape on a Horizon
404, the error string on any other fetch failure, and the mapped
balances with the sequence number on success. -/
def GetWalletDetails (env : Env) (publicKey : String) :
    Except String WalletDetailsResponse × List NetCall :=
  match env.parseAddress publicKey with
  | none => (.error "invalid public key format", [])
  | some _ =>
    match env.accountDetail publicKey with
    | .horizonErr statusCode e =>
        if statusCode = 404 then
          (.ok { publicKey := publicKey
                 existsFlag := false
                 balances := []
                 sequenceNumber := 0 },
           [.fetchAccount publicKey])
        else
          (.error ("failed to fetch wallet details: " ++ e), [.fetchAccount publicKey])
    | .otherErr e =>
        (.error ("failed to fetch wallet details: " ++ e), [.fetchAccount publicKey])
    | .ok account =>
        (.ok { publicKey := publicKey
               existsFlag := true
               balances := account.balances.map
                 (fun b => { assetType := b.btype
                             assetCode := b.code
                             issuer := b.issuer
                             balance := b.balance })
               sequenceNumber := account.sequence },
         [.fetchAccount publicKey])

/-- Embedding of WalletService.TransferFunds: validate the sender secret,
the recipient address and the amount in that order before any network
call, fetch the sender account, build the single-payment envelope, select
the passphrase, sign with the sender key only, submit, and return the
response; every early return carries the exact error string of the Go
code and the trace of network calls performed so far. -/
def TransferFunds (env : Env) (cfg : Config) (req : TransferRequest) :
    Except String TransferResponse × List NetCall :=
  match env.parseFull req.fromSecretKey with
  | none => (.error "invalid sender secret key", [])
  | some senderKP =>
    match env.parseAddress req.toPublicKey with
    | none => (.error "invalid recipient public key", [])
    | some _ =>
      match goParseFloat req.amount with
      | none => (.error "invalid amount: must be a positive number", [])
      | some amountFloat =>
        if goFloatLE0 amountFloat then
          (.error "invalid amount: must be a positive number", [])
        else
          match env.accountDetail senderKP.address with
          | .horizonErr _ e =>
              (.error ("failed to fetch sender account details: " ++ e),
               [.fetchAccount senderKP.address])
          | .otherErr e =>
              (.error ("failed to fetch sender account details: " ++ e),
               [.fetchAccount senderKP.address])
          | .ok sourceAccount =>
            let paymentOp :=
              Operation.payment req.toPublicKey req.amount cfg.usdcAsset.code cfg.usdcAsset.issuer
            let tx := buildTransaction sourceAccount [paymentOp] env.now
            match env.buildErr tx with
            | some e =>
                (.error ("failed to build transaction: " ++ e),
                 [.fetchAccount senderKP.address])
            | none =>
              let networkPassphrase := networkPassphraseFor cfg.network
              let signedTx := signTx tx networkPassphrase [senderKP.seed]
              match env.signErr signedTx with
              | some e =>
                  (.error ("failed to sign transaction: " ++ e),
                   [.fetchAccount senderKP.address])
              | none =>
                match env.submit signedTx with
                | .horizonErr detail _ =>
                    (.error ("transaction failed: " ++ detail),
                     [.fetchAccount senderKP.address, .submitTx signedTx])
                | .otherErr e =>
                    (.error ("failed to submit transaction: " ++ e),
                     [.fetchAccount senderKP.address, .submitTx signedTx])
                | .ok hash =>
                    (.ok { transactionHash := hash
                           message := "USDC transferred successfully" },
                     [.fetchAccount senderKP.address, .submitTx signedTx])

/-- Embedding of the create-wallet controller error branch: every service
error is mapped to HTTP 500. -/
def createWalletStatusCode (_errMsg : String) : Nat := 500

/-- Embedding of the get-wallet-details controller error branch: HTTP 400
exactly when the error message text equals the invalid-format message,
HTTP 500 otherwise. -/
def getWalletDetailsStatusCode (errMsg : String) : Nat :=
  if errMsg = "invalid public key format" then 400 else 500

/-- Embedding of the transfer controller error branch: HTTP 400 exactly
when the error message text equals one of the three validation messages,
HTTP 500 otherwise. -/
def transferStatusCode (errMsg : String) : Nat :=
  if errMsg = "invalid sender secret key" ∨ errMsg = "invalid recipient public key" ∨
      errMsg = "invalid amount: must be a positive number" then 400 else 500

/-- Closed set of error kinds of the specification taxonomy. -/
inductive ErrKind where
  | invalidKey
  | invalidAddress
  | invalidAmount
  | notFound
  | unavailable
  | rejected
  | buildError
  | internal
deriving DecidableEq

/-- Status code a kind-branching caller would choose: client error for
the three validation kinds, server error otherwise. -/
def statusOfKind : ErrKind → Nat
  | .invalidKey => 400
  | .invalidAddress => 400
  | .invalidAmount => 400
  | _ => 500

/-- Boolean prefix test on strings, on the underlying character lists. -/
def strHasPre (p s : String) : Bool := p.data.isPrefixOf s.data

/-- Kind classification of the error messages TransferFunds can return,
by their fixed text or fixed text head. -/
def transferErrKind (msg : String) : ErrKind :=
  if msg = "invalid sender secret key" then .invalidKey
  else if msg = "invalid recipient public key" then .invalidAddress
  else if msg = "invalid amount: must be a positive number" then .invalidAmount
  else if strHasPre "failed to fetch sender account details: " msg then .unavailable
  else if strHasPre "failed to build transaction: " msg then .buildError
  else if strHasPre "failed to sign transaction: " msg then .internal
  else if strHasPre "failed to submit transaction: " msg then .unavailable
  else if strHasPre "transaction failed: " msg then .rejected
  else .internal

/-- Kind classification of the error messages GetWalletDetails can
return. -/
def detailsErrKind (msg : String) : ErrKind :=
  if msg = "invalid public key format" then .invalidKey
  else if strHasPre "failed to fetch wallet details: " msg then .unavailable
  else .internal

/-- Kind classification of the error messages CreateWallet can return;
none of them is a client-input validation kind. -/
def createErrKind (msg : String) : ErrKind :=
  if strHasPre "transaction failed: " msg then .rejected
  else if strHasPre "failed to fetch master account details: " msg then .unavailable
  else if strHasPre "failed to submit transaction: " msg then .unavailable
  else if strHasPre "failed to build transaction: " msg then .buildError
  else .internal

/-- Character lists clash when they differ at some position inside their
common length; a clash rules out both equality and prefixing however the
first list is extended. -/
def clash : List Char → List Char → Bool
  | a :: p, b :: q => (a != b) || clash p q
  | [], _ => false
  | _ :: _, [] => false

/-- Sample master account used by the concrete witness environments. -/
def sampleAccount : Account :=
  { accountID := "GMASTER"
    sequence := 7
    balances := [{ btype := "credit_alphanum4", code := "USDC", issuer := "GISS",
                   balance := "100.0000000" }] }

/-- Sample configuration used by the concrete witness environments. -/
def sampleCfg : Config :=
  { network := "testnet"
    masterSecret := "SMASTER"
    usdcAsset := { code := "USDC", issuer := "GISS" } }

/-- Environment in which every external call succeeds. -/
def happyEnv : Env :=
  { now := 1000
    randomKP := .ok { address := "GNEW", seed := "SNEW" }
    parseKP := fun s =>
      if s = "SMASTER" then .ok (.full { address := "GMASTER", seed := "SMASTER" })
      else .error "bad secret"
    parseFull := fun s =>
      if s = "SSENDER" then some { address := "GSENDER", seed := "SSENDER" } else none
    parseAddress := fun s => if s = "GRECIP" then some s else none
    accountDetail := fun _ => .ok sampleAccount
    submit := fun _ => .ok "deadbeef"
    toChangeTrustErr := none
    buildErr := fun _ => none
    signErr := fun _ => none }

/-- Environment in which the account lookup reports a Horizon 404. -/
def notFoundEnv : Env :=
  { happyEnv with
    parseAddress := fun s => if s = "GNEVER" then some s else none
    accountDetail := fun _ => .horizonErr 404 "Resource Missing" }

/-- Environment in which the submission is rejected by the node. -/
def rejectedEnv : Env :=
  { happyEnv with
    submit := fun _ => .horizonErr "tx_bad_seq" "horizon error" }

/-- Recognizer of submit calls in a network trace. -/
def isSubmit : NetCall → Bool
  | .submitTx _ => true
  | .fetchAccount _ => false

/-- The signed envelope CreateWallet submits in the sample environment. -/
def sampleCreateTx : Transaction :=
  { sourceAccountID := "GMASTER", seqNum := 8
    operations := [Operation.createAccount "GNEW" "0.5",
                   Operation.changeTrust "USDC" "GISS",
                   Operation.payment "GNEW" "100" "USDC" "GISS"]
    baseFee := 100, minTime := 0, maxTime := 1300
    networkPassphrase := TestNetworkPassphrase
    signatures := ["SMASTER", "SNEW"] }

/-- The signed envelope TransferFunds submits in the sample environment
for a transfer of amount NaN. -/
def sampleNaNTx : Transaction :=
  { sourceAccountID := "GMASTER", seqNum := 8
    operations := [Operation.payment "GRECIP" "NaN" "USDC" "GISS"]
    baseFee := 100, minTime := 0, maxTime := 1300
    networkPassphrase := TestNetworkPassphrase
    signatures := ["SSENDER"] }

theorem data_append (s t : String) : (s ++ t).data = s.data ++ t.data := by
  cases s
  cases t
  rfl

theorem append_ne_of_clash :
    ∀ (p c : List Char), clash p c = true → ∀ t, p ++ t ≠ c
  | a :: p, b :: c, h, t => by
    simp only [clash, Bool.or_eq_true, bne_iff_ne] at h
    intro he
    simp only [List.cons_append, List.cons.injEq] at he
    cases h with
    | inl hne => exact hne he.1
    | inr h2 => exact append_ne_of_clash p c h2 t he.2
  | [], c, h, t => by simp [clash] at h
  | _ :: _, [], h, t => by simp [clash] at h

/-- String version: a clash between a prefix text and a whole constant
makes the extended prefix different from the constant. -/
theorem str_append_ne (q t c : String) (h : clash q.data c.data = true) : q ++ t ≠ c := by
  intro he
  exact append_ne_of_clash q.data c.data h t.data (by rw [← data_append, he])

theorem isPrefixOf_append_self : ∀ (p t : List Char), p.isPrefixOf (p ++ t) = true
  | [], _ => by simp [List.isPrefixOf]
  | a :: p, t => by
    simp only [List.cons_append, List.isPrefixOf, Bool.and_eq_true, beq_self_eq_true, true_and]
    exact isPrefixOf_append_self p t

theorem isPrefixOf_append_false :
    ∀ (p q : List Char), clash p q = true → ∀ t, p.isPrefixOf (q ++ t) = false
  | a :: p, b :: q, h, t => by
    simp only [clash, Bool.or_eq_true, bne_iff_ne] at h
    simp only [List.cons_append, List.isPrefixOf]
    cases h with
    | inl hne => simp [hne]
    | inr h2 => simp [isPrefixOf_append_false p q h2 t]
  | [], q, h, t => by simp [clash] at h
  | _ :: _, [], h, t => by simp [clash] at h

/-- A text is a prefix of itself extended by anything. -/
theorem strHasPre_append (p t : String) : strHasPre p (p ++ t) = true := by
  unfold strHasPre
  rw [data_append]
  exact isPrefixOf_append_self _ _

/-- A clash with the head text rules out the prefix however the head is
extended. -/
theorem strHasPre_append_false (p q t : String) (h : clash p.data q.data = true) :
    strHasPre p (q ++ t) = false := by
  unfold strHasPre
  rw [data_append]
  exact isPrefixOf_append_false _ _ h _

/-- C2: TransferFunds validates all three inputs before any network call:
a sender secret that does not parse as a full keypair yields the
invalid-key error, a recipient that does not parse as an address yields
the invalid-address error, and an amount that fails to parse as a
positive decimal (in particular "0", "-5" and "abc") yields the
invalid-amount error; in every such case the network trace is empty, so
no account fetch and no submission is performed. -/
theorem transferFunds_validation (env : Env) (cfg : Config) (req : TransferRequest) :
    (env.parseFull req.fromSecretKey = none →
      TransferFunds env cfg req = (.error "invalid sender secret key", [])) ∧
    (∀ kp, env.parseFull req.fromSecretKey = some kp →
      env.parseAddress req.toPublicKey = none →
      TransferFunds env cfg req = (.error "invalid recipient public key", [])) ∧
    (∀ kp a, env.parseFull req.fromSecretKey = some kp →
      env.parseAddress req.toPublicKey = some a →
      (goParseFloat req.amount = none ∨
        ∃ f, goParseFloat req.amount = some f ∧ goFloatLE0 f = true) →
      TransferFunds env cfg req = (.error "invalid amount: must be a positive number", [])) ∧
    (goParseFloat "0" = some (.finite 0) ∧ goFloatLE0 (.finite 0) = true ∧
     goParseFloat "-5" = some (.finite (-5)) ∧ goFloatLE0 (.finite (-5)) = true ∧
     goParseFloat "abc" = none) := by
  refine ⟨?_, ?_, ?_, by decide⟩
  · intro h
    simp [TransferFunds, h]
  · intro kp hkp haddr
    simp [TransferFunds, hkp, haddr]
  · intro kp a hkp haddr hbad
    rcases hbad with hnone | ⟨f, hf, hle⟩
    · simp [TransferFunds, hkp, haddr, hnone]
    · simp [TransferFunds, hkp, haddr, hf, hle]

/-- Witness for C2 at concrete inputs in a concrete environment. -/
theorem transferFunds_validation_witness :
    TransferFunds happyEnv sampleCfg ⟨"BADSECRET", "GRECIP", "10"⟩ =
      (.error "invalid sender secret key", []) ∧
    TransferFunds happyEnv sampleCfg ⟨"SSENDER", "BADADDR", "10"⟩ =
      (.error "invalid recipient public key", []) ∧
    TransferFunds happyEnv sampleCfg ⟨"SSENDER", "GRECIP", "abc"⟩ =
      (.error "invalid amount: must be a positive number", []) :=
  ⟨(transferFunds_validation happyEnv sampleCfg _).1 (by decide),
   (transferFunds_validation happyEnv sampleCfg _).2.1
     { address := "GSENDER", seed := "SSENDER" } (by decide) (by decide),
   (transferFunds_validation happyEnv sampleCfg _).2.2.1
     { address := "GSENDER", seed := "SSENDER" } "GRECIP" (by decide) (by decide)
     (Or.inl (by decide))⟩

/-- C10: TransferFunds validates in the fixed short-circuit order sender
secret, then recipient address, then amount: whenever the sender secret
fails to parse the invalid-key error is returned whatever the other two
fields contain, and whenever the sender secret parses but the recipient
fails to parse the invalid-address error is returned whatever the amount
contains. -/
theorem transfer_validation_order (env : Env) (cfg : Config) (req : TransferRequest) :
    (env.parseFull req.fromSecretKey = none →
      TransferFunds env cfg req = (.error "invalid sender secret key", [])) ∧
    (∀ kp, env.parseFull req.fromSecretKey = some kp →
      env.parseAddress req.toPublicKey = none →
      TransferFunds env cfg req = (.error "invalid recipient public key", [])) := by
  refine ⟨?_, ?_⟩
  · intro h
    simp [TransferFunds, h]
  · intro kp hkp haddr
    simp [TransferFunds, hkp, haddr]

/-- Witness for C10: a request with both a malformed secret and a
malformed amount returns the invalid-key error, and a request with a
valid secret, malformed recipient and malformed amount returns the
invalid-address error. -/
theorem transfer_validation_order_witness :
    TransferFunds happyEnv sampleCfg ⟨"BADSECRET", "BADADDR", "abc"⟩ =
      (.error "invalid sender secret key", []) ∧
    TransferFunds happyEnv sampleCfg ⟨"SSENDER", "BADADDR", "abc"⟩ =
      (.error "invalid recipient public key", []) :=
  ⟨(transfer_validation_order happyEnv sampleCfg _).1 (by decide),
   (transfer_validation_order happyEnv sampleCfg _).2
     { address := "GSENDER", seed := "SSENDER" } (by decide) (by decide)⟩

/-- C3: GetWalletDetails on a well-formed address whose account lookup
reports a Horizon 404 returns a successful result with the input address,
exists flag false, empty balances and sequence number zero, after exactly
one account fetch; and on an address whose format is invalid it returns
the invalid-key error with an empty network trace. -/
theorem getWalletDetails_notFound (env : Env) (pk : String) :
    (∀ a e, env.parseAddress pk = some a →
      env.accountDetail pk = .horizonErr 404 e →
      GetWalletDetails env pk =
        (.ok { publicKey := pk, existsFlag := false, balances := [], sequenceNumber := 0 },
         [.fetchAccount pk])) ∧
    (env.parseAddress pk = none →
      GetWalletDetails env pk = (.error "invalid public key format", [])) := by
  refine ⟨?_, ?_⟩
  · intro a e ha hacc
    simp [GetWalletDetails, ha, hacc]
  · intro h
    simp [GetWalletDetails, h]

/-- Witness for C3 at concrete inputs in a concrete environment. -/
theorem getWalletDetails_notFound_witness :
    GetWalletDetails notFoundEnv "GNEVER" =
      (.ok { publicKey := "GNEVER", existsFlag := false, balances := [], sequenceNumber := 0 },
       [.fetchAccount "GNEVER"]) ∧
    GetWalletDetails notFoundEnv "not-an-address" =
      (.error "invalid public key format", []) :=
  ⟨(getWalletDetails_notFound notFoundEnv "GNEVER").1 "GNEVER" "Resource Missing"
     (by decide) (by decide),
   (getWalletDetails_notFound notFoundEnv "not-an-address").2 (by decide)⟩

/-- C6: GetWalletDetails on a well-formed address whose account exists
returns the input address, exists flag true, the fetched sequence number,
and the balances of the account mapped in order to their asset type,
asset code, issuer and balance string, unchanged. -/
theorem getWalletDetails_existing (env : Env) (pk : String) (a : Account) :
    ∀ x, env.parseAddress pk = some x → env.accountDetail pk = .ok a →
    GetWalletDetails env pk =
      (.ok { publicKey := pk
             existsFlag := true
             balances := a.balances.map
               (fun b => { assetType := b.btype, assetCode := b.code,
                           issuer := b.issuer, balance := b.balance })
             sequenceNumber := a.sequence },
       [.fetchAccount pk]) := by
  intro x hx hacc
  simp [GetWalletDetails, hx, hacc]

/-- Witness for C6 at a concrete account with one balance entry. -/
theorem getWalletDetails_existing_witness :
    GetWalletDetails happyEnv "GRECIP" =
      (.ok { publicKey := "GRECIP"
             existsFlag := true
             balances := [{ assetType := "credit_alphanum4", assetCode := "USDC",
                            issuer := "GISS", balance := "100.0000000" }]
             sequenceNumber := 7 },
       [.fetchAccount "GRECIP"]) :=
  getWalletDetails_existing happyEnv "GRECIP" sampleAccount "GRECIP" (by decide) (by decide)

/-- C1: every successful execution of CreateWallet generated a fresh full
keypair, fetched the funding master account, built a single envelope with
exactly the three operations create-account, change-trust and payment of
amount 100 in that order, signed it with both the master seed and the new
seed, submitted exactly that envelope, and returned the new address, the
new secret and the message carrying the confirmed hash. -/
theorem createWallet_success_shape (env : Env) (cfg : Config) (r : WalletResponse)
    (trace : List NetCall) (h : CreateWallet env cfg = (.ok r, trace)) :
    ∃ kp masterKP sourceAccount hash tx,
      env.randomKP = .ok kp ∧
      env.parseKP cfg.masterSecret = .ok (KP.full masterKP) ∧
      env.accountDetail masterKP.address = .ok sourceAccount ∧
      tx = signTx
        (buildTransaction sourceAccount
          [Operation.createAccount kp.address "0.5",
           Operation.changeTrust cfg.usdcAsset.code cfg.usdcAsset.issuer,
           Operation.payment kp.address "100" cfg.usdcAsset.code cfg.usdcAsset.issuer]
          env.now)
        (networkPassphraseFor cfg.network)
        [masterKP.seed, kp.seed] ∧
      tx.operations =
        [Operation.createAccount kp.address "0.5",
         Operation.changeTrust cfg.usdcAsset.code cfg.usdcAsset.issuer,
         Operation.payment kp.address "100" cfg.usdcAsset.code cfg.usdcAsset.issuer] ∧
      tx.signatures = [masterKP.seed, kp.seed] ∧
      env.submit tx = .ok hash ∧
      trace = [.fetchAccount masterKP.address, .submitTx tx] ∧
      r = { publicKey := kp.address
            secretKey := kp.seed
            message := "Wallet created, trusted USDC, and funded successfully. Hash: " ++ hash } := by
  unfold CreateWallet at h
  simp only [] at h
  repeat' split at h
  all_goals simp only [Prod.mk.injEq] at h
  all_goals try exact (Except.noConfusion h.1)
  obtain ⟨hr, htr⟩ := h
  injection hr with hr
  rename_i x1 kp hrand x2 x3 hct x4 sourceAccount x5 hbuild masterKP mfull hparse hacc x6 hsign x7 hash hsub
  exact ⟨kp, mfull, sourceAccount, hash,
    signTx
      (buildTransaction sourceAccount
        [Operation.createAccount kp.address "0.5",
         Operation.changeTrust cfg.usdcAsset.code cfg.usdcAsset.issuer,
         Operation.payment kp.address "100" cfg.usdcAsset.code cfg.usdcAsset.issuer]
        env.now)
      (networkPassphraseFor cfg.network) [mfull.seed, kp.seed],
    hrand, hparse, hacc, rfl, rfl, rfl, hsub, htr.symm, hr.symm⟩

/-- Witness for C1: the success shape at a concrete environment in which
every external call succeeds. -/
theorem createWallet_success_shape_witness :
    ∃ kp masterKP sourceAccount hash tx,
      happyEnv.randomKP = .ok kp ∧
      happyEnv.parseKP sampleCfg.masterSecret = .ok (KP.full masterKP) ∧
      happyEnv.accountDetail masterKP.address = .ok sourceAccount ∧
      tx = signTx
        (buildTransaction sourceAccount
          [Operation.createAccount kp.address "0.5",
           Operation.changeTrust sampleCfg.usdcAsset.code sampleCfg.usdcAsset.issuer,
           Operation.payment kp.address "100" sampleCfg.usdcAsset.code sampleCfg.usdcAsset.issuer]
          happyEnv.now)
        (networkPassphraseFor sampleCfg.network)
        [masterKP.seed, kp.seed] ∧
      tx.operations =
        [Operation.createAccount kp.address "0.5",
         Operation.changeTrust sampleCfg.usdcAsset.code sampleCfg.usdcAsset.issuer,
         Operation.payment kp.address "100" sampleCfg.usdcAsset.code sampleCfg.usdcAsset.issuer] ∧
      tx.signatures = [masterKP.seed, kp.seed] ∧
      happyEnv.submit tx = .ok hash ∧
      [NetCall.fetchAccount "GMASTER",
       NetCall.submitTx
         { sourceAccountID := "GMASTER", seqNum := 8
           operations := [Operation.createAccount "GNEW" "0.5",
                          Operation.changeTrust "USDC" "GISS",
                          Operation.payment "GNEW" "100" "USDC" "GISS"]
           baseFee := 100, minTime := 0, maxTime := 1300
           networkPassphrase := TestNetworkPassphrase
           signatures := ["SMASTER", "SNEW"] }] =
        [NetCall.fetchAccount masterKP.address, NetCall.submitTx tx] ∧
      ({ publicKey := "GNEW", secretKey := "SNEW"
         message := "Wallet created, trusted USDC, and funded successfully. Hash: deadbeef" }
        : WalletResponse) =
        { publicKey := kp.address, secretKey := kp.seed
          message := "Wallet created, trusted USDC, and funded successfully. Hash: " ++ hash } :=
  createWallet_success_shape happyEnv sampleCfg
    { publicKey := "GNEW", secretKey := "SNEW"
      message := "Wallet created, trusted USDC, and funded successfully. Hash: deadbeef" }
    [NetCall.fetchAccount "GMASTER",
     NetCall.submitTx
       { sourceAccountID := "GMASTER", seqNum := 8
         operations := [Operation.createAccount "GNEW" "0.5",
                        Operation.changeTrust "USDC" "GISS",
                        Operation.payment "GNEW" "100" "USDC" "GISS"]
         baseFee := 100, minTime := 0, maxTime := 1300
         networkPassphrase := TestNetworkPassphrase
         signatures := ["SMASTER", "SNEW"] }]
    rfl

/-- Every transaction CreateWallet submits is the signed envelope built
from the fetched master account and the three operations. -/
theorem createWallet_submit_mem (env : Env) (cfg : Config) :
    ∀ tx, NetCall.submitTx tx ∈ (CreateWallet env cfg).2 →
      ∃ kp mfull sourceAccount,
        env.randomKP = .ok kp ∧
        env.parseKP cfg.masterSecret = .ok (KP.full mfull) ∧
        env.accountDetail (KP.full mfull).address = .ok sourceAccount ∧
        tx = signTx
          (buildTransaction sourceAccount
            [Operation.createAccount kp.address "0.5",
             Operation.changeTrust cfg.usdcAsset.code cfg.usdcAsset.issuer,
             Operation.payment kp.address "100" cfg.usdcAsset.code cfg.usdcAsset.issuer]
            env.now)
          (networkPassphraseFor cfg.network) [mfull.seed, kp.seed] := by
  intro tx htx
  unfold CreateWallet at htx
  simp only [] at htx
  repeat' split at htx
  all_goals simp at htx
  all_goals subst htx
  all_goals exact ⟨_, _, _, by assumption, by assumption, by assumption, rfl⟩

/-- Every transaction TransferFunds submits is the signed single-payment
envelope built from the fetched sender account. -/
theorem transferFunds_submit_mem (env : Env) (cfg : Config) (req : TransferRequest) :
    ∀ tx, NetCall.submitTx tx ∈ (TransferFunds env cfg req).2 →
      ∃ senderKP x f sourceAccount,
        env.parseFull req.fromSecretKey = some senderKP ∧
        env.parseAddress req.toPublicKey = some x ∧
        goParseFloat req.amount = some f ∧
        goFloatLE0 f = false ∧
        env.accountDetail senderKP.address = .ok sourceAccount ∧
        tx = signTx
          (buildTransaction sourceAccount
            [Operation.payment req.toPublicKey req.amount cfg.usdcAsset.code cfg.usdcAsset.issuer]
            env.now)
          (networkPassphraseFor cfg.network) [senderKP.seed] := by
  intro tx htx
  unfold TransferFunds at htx
  simp only [] at htx
  repeat' split at htx
  all_goals simp at htx
  all_goals subst htx
  all_goals exact ⟨_, _, _, _, by assumption, by assumption, by assumption,
    by rw [← Bool.not_eq_true]; assumption, by assumption, rfl⟩

/-- C5: every envelope CreateWallet or TransferFunds submits carries the
fetched source account sequence number incremented exactly once per
envelope, keeps the operations in the order they were given, and has a
validity window from zero to the current time plus 300 seconds. -/
theorem envelope_seq_order_expiry (env : Env) (cfg : Config) (req : TransferRequest) :
    (∀ tx, NetCall.submitTx tx ∈ (CreateWallet env cfg).2 →
      ∃ (kp mfull : Full) (sourceAccount : Account),
        env.accountDetail (KP.full mfull).address = .ok sourceAccount ∧
        tx.seqNum = sourceAccount.sequence + 1 ∧
        tx.operations =
          [Operation.createAccount kp.address "0.5",
           Operation.changeTrust cfg.usdcAsset.code cfg.usdcAsset.issuer,
           Operation.payment kp.address "100" cfg.usdcAsset.code cfg.usdcAsset.issuer] ∧
        tx.minTime = 0 ∧ tx.maxTime = env.now + 300) ∧
    (∀ tx, NetCall.submitTx tx ∈ (TransferFunds env cfg req).2 →
      ∃ (senderKP : Full) (sourceAccount : Account),
        env.accountDetail senderKP.address = .ok sourceAccount ∧
        tx.seqNum = sourceAccount.sequence + 1 ∧
        tx.operations =
          [Operation.payment req.toPublicKey req.amount cfg.usdcAsset.code cfg.usdcAsset.issuer] ∧
        tx.minTime = 0 ∧ tx.maxTime = env.now + 300) := by
  constructor
  · intro tx htx
    obtain ⟨kp, mfull, src, h1, h2, h3, htxeq⟩ := createWallet_submit_mem env cfg tx htx
    subst htxeq
    exact ⟨kp, mfull, src, h3, rfl, rfl, rfl, rfl⟩
  · intro tx htx
    obtain ⟨skp, x, f, src, h1, h2, h3, h4, h5, htxeq⟩ :=
      transferFunds_submit_mem env cfg req tx htx
    subst htxeq
    exact ⟨skp, src, h5, rfl, rfl, rfl, rfl⟩

/-- Witness for C5: the envelope submitted in the sample environment. -/
theorem envelope_seq_order_expiry_witness :
    ∃ (kp mfull : Full) (sourceAccount : Account),
      happyEnv.accountDetail (KP.full mfull).address = .ok sourceAccount ∧
      sampleCreateTx.seqNum = sourceAccount.sequence + 1 ∧
      sampleCreateTx.operations =
        [Operation.createAccount kp.address "0.5",
         Operation.changeTrust sampleCfg.usdcAsset.code sampleCfg.usdcAsset.issuer,
         Operation.payment kp.address "100" sampleCfg.usdcAsset.code sampleCfg.usdcAsset.issuer] ∧
      sampleCreateTx.minTime = 0 ∧ sampleCreateTx.maxTime = happyEnv.now + 300 :=
  (envelope_seq_order_expiry happyEnv sampleCfg ⟨"SSENDER", "GRECIP", "10"⟩).1
    sampleCreateTx (by decide)

/-- C4: the testnet Horizon client and the testnet passphrase are
selected exactly when the configured network string equals testnet; every
other value, the empty string included, selects the public client and the
public passphrase, and every envelope either operation signs carries the
passphrase selected this way. -/
theorem network_selection_iff_testnet :
    (∀ netStr : String,
      (selectHorizonClient netStr = .testnet ↔ netStr = "testnet") ∧
      (networkPassphraseFor netStr = TestNetworkPassphrase ↔ netStr = "testnet") ∧
      (netStr ≠ "testnet" → selectHorizonClient netStr = .pubnet ∧
        networkPassphraseFor netStr = PublicNetworkPassphrase)) ∧
    (selectHorizonClient "" = .pubnet ∧ networkPassphraseFor "" = PublicNetworkPassphrase) ∧
    (∀ env cfg tx, NetCall.submitTx tx ∈ (CreateWallet env cfg).2 →
      tx.networkPassphrase = networkPassphraseFor cfg.network) ∧
    (∀ env cfg req tx, NetCall.submitTx tx ∈ (TransferFunds env cfg req).2 →
      tx.networkPassphrase = networkPassphraseFor cfg.network) := by
  refine ⟨?_, by decide, ?_, ?_⟩
  · intro netStr
    by_cases h : netStr = "testnet"
    · subst h
      refine ⟨?_, ?_, fun hc => absurd rfl hc⟩ <;>
        simp [selectHorizonClient, networkPassphraseFor]
    · refine ⟨⟨fun hp => ?_, fun he => absurd he h⟩,
              ⟨fun hp => ?_, fun he => absurd he h⟩,
              fun _ => ⟨?_, ?_⟩⟩
      · simp only [selectHorizonClient, if_neg h] at hp
        exact absurd hp (by decide)
      · simp only [networkPassphraseFor, if_neg h] at hp
        exact absurd hp (by decide)
      · simp [selectHorizonClient, h]
      · simp [networkPassphraseFor, h]
  · intro env cfg tx htx
    obtain ⟨kp, mfull, src, h1, h2, h3, htxeq⟩ := createWallet_submit_mem env cfg tx htx
    subst htxeq
    rfl
  · intro env cfg req tx htx
    obtain ⟨skp, x, f, src, h1, h2, h3, h4, h5, htxeq⟩ :=
      transferFunds_submit_mem env cfg req tx htx
    subst htxeq
    rfl

/-- Witness for C4 at concrete network strings and a concrete submitted
envelope. -/
theorem network_selection_iff_testnet_witness :
    selectHorizonClient "testnet" = HorizonClient.testnet ∧
    selectHorizonClient "" = HorizonClient.pubnet ∧
    networkPassphraseFor "" = PublicNetworkPassphrase ∧
    sampleCreateTx.networkPassphrase = networkPassphraseFor sampleCfg.network :=
  ⟨(network_selection_iff_testnet.1 "testnet").1.mpr rfl,
   network_selection_iff_testnet.2.1.1,
   network_selection_iff_testnet.2.1.2,
   network_selection_iff_testnet.2.2.1 happyEnv sampleCfg sampleCreateTx (by decide)⟩

/-- C8: each execution of CreateWallet and of TransferFunds submits at
most one envelope; whenever a submitted envelope fails, the submit call
is the last network call of the trace and the result is the error derived
from that failure, carrying the node detail text when the failure is a
Horizon problem; no resubmission or retry follows. -/
theorem submit_at_most_once (env : Env) (cfg : Config) (req : TransferRequest) :
    (CreateWallet env cfg).2.countP isSubmit ≤ 1 ∧
    (TransferFunds env cfg req).2.countP isSubmit ≤ 1 ∧
    (∀ res tr, CreateWallet env cfg = (res, tr) → ∀ tx, NetCall.submitTx tx ∈ tr →
      tr.getLast? = some (NetCall.submitTx tx) ∧
      (∀ d e, env.submit tx = .horizonErr d e → res = .error ("transaction failed: " ++ d)) ∧
      (∀ e, env.submit tx = .otherErr e →
        res = .error ("failed to submit transaction: " ++ e))) ∧
    (∀ res tr, TransferFunds env cfg req = (res, tr) → ∀ tx, NetCall.submitTx tx ∈ tr →
      tr.getLast? = some (NetCall.submitTx tx) ∧
      (∀ d e, env.submit tx = .horizonErr d e → res = .error ("transaction failed: " ++ d)) ∧
      (∀ e, env.submit tx = .otherErr e →
        res = .error ("failed to submit transaction: " ++ e))) := by
  refine ⟨?_, ?_, ?_, ?_⟩
  · unfold CreateWallet
    simp only []
    repeat' split
    all_goals simp [List.countP_cons, isSubmit]
  · unfold TransferFunds
    simp only []
    repeat' split
    all_goals simp [List.countP_cons, isSubmit]
  · intro res tr h tx htx
    unfold CreateWallet at h
    simp only [] at h
    repeat' split at h
    all_goals simp only [Prod.mk.injEq] at h
    all_goals obtain ⟨hres, htr⟩ := h
    all_goals subst hres
    all_goals subst htr
    all_goals simp at htx
    all_goals subst htx
    all_goals refine ⟨rfl, fun d e hde => ?_, fun e hde => ?_⟩
    all_goals simp_all
  · intro res tr h tx htx
    unfold TransferFunds at h
    simp only [] at h
    repeat' split at h
    all_goals simp only [Prod.mk.injEq] at h
    all_goals obtain ⟨hres, htr⟩ := h
    all_goals subst hres
    all_goals subst htr
    all_goals simp at htx
    all_goals subst htx
    all_goals refine ⟨rfl, fun d e hde => ?_, fun e hde => ?_⟩
    all_goals simp_all

/-- Witness for C8 in an environment whose node rejects the submission. -/
theorem submit_at_most_once_witness :
    (CreateWallet rejectedEnv sampleCfg).2.countP isSubmit ≤ 1 ∧
    [NetCall.fetchAccount "GMASTER", NetCall.submitTx sampleCreateTx].getLast? =
      some (NetCall.submitTx sampleCreateTx) ∧
    (Except.error ("transaction failed: " ++ "tx_bad_seq") : Except String WalletResponse) =
      .error ("transaction failed: " ++ "tx_bad_seq") := by
  have h := submit_at_most_once rejectedEnv sampleCfg ⟨"SSENDER", "GRECIP", "10"⟩
  have h3 := h.2.2.1 (.error ("transaction failed: " ++ "tx_bad_seq"))
    [NetCall.fetchAccount "GMASTER", NetCall.submitTx sampleCreateTx] rfl
    sampleCreateTx (by decide)
  exact ⟨h.1, h3.1, h3.2.1 "tx_bad_seq" "horizon error" (by decide)⟩

/-- C9: once the sender secret and the recipient address validate,
TransferFunds returns the invalid-amount error exactly when the parse of
the amount fails or the parsed value compares less than or equal to zero;
the strings NaN and +Inf parse to values for which that comparison is
false, so they pass validation, and any amount that passes validation is
forwarded verbatim: the flow proceeds to the sender account fetch and the
submitted envelope carries the amount string unchanged in its payment
operation. -/
theorem invalidAmount_iff_parsefloat (env : Env) (cfg : Config) (req : TransferRequest) :
    (∀ kp x res tr,
      env.parseFull req.fromSecretKey = some kp →
      env.parseAddress req.toPublicKey = some x →
      TransferFunds env cfg req = (res, tr) →
      (res = .error "invalid amount: must be a positive number" ↔
        goParseFloat req.amount = none ∨
          ∃ f, goParseFloat req.amount = some f ∧ goFloatLE0 f = true)) ∧
    (goParseFloat "NaN" = some .nan ∧ goFloatLE0 .nan = false ∧
     goParseFloat "+Inf" = some (.inf false) ∧ goFloatLE0 (.inf false) = false) ∧
    (∀ (kp : Full) (x : String) (f : GoFloat),
      env.parseFull req.fromSecretKey = some kp →
      env.parseAddress req.toPublicKey = some x →
      goParseFloat req.amount = some f → goFloatLE0 f = false →
      (∃ rest, (TransferFunds env cfg req).2 = NetCall.fetchAccount kp.address :: rest) ∧
      (∀ tx, NetCall.submitTx tx ∈ (TransferFunds env cfg req).2 →
        tx.operations = [Operation.payment req.toPublicKey req.amount
          cfg.usdcAsset.code cfg.usdcAsset.issuer])) := by
  refine ⟨?_, by decide, ?_⟩
  · intro kp x res tr hkp hx h
    constructor
    · intro hres
      unfold TransferFunds at h
      simp only [hkp, hx] at h
      repeat' split at h
      all_goals simp only [Prod.mk.injEq] at h
      all_goals first
        | exact Or.inl (by assumption)
        | exact Or.inr ⟨_, by assumption, by assumption⟩
        | exact Except.noConfusion (h.1.trans hres)
        | exact absurd (Except.error.inj (h.1.trans hres))
            (str_append_ne _ _ _ (by decide))
    · intro hbad
      rcases hbad with hnone | ⟨f, hf, hle⟩
      · have h2 : TransferFunds env cfg req =
            (.error "invalid amount: must be a positive number", []) := by
          simp [TransferFunds, hkp, hx, hnone]
        exact congrArg Prod.fst (h.symm.trans h2)
      · have h2 : TransferFunds env cfg req =
            (.error "invalid amount: must be a positive number", []) := by
          simp [TransferFunds, hkp, hx, hf, hle]
        exact congrArg Prod.fst (h.symm.trans h2)
  · intro kp x f hkp hx hf hle
    constructor
    · unfold TransferFunds
      simp only [hkp, hx, hf, hle, Bool.false_eq_true, if_false]
      repeat' split
      all_goals exact ⟨_, rfl⟩
    · intro tx htx
      obtain ⟨skp, x2, f2, src, h1, h2, h3, h4, h5, htxeq⟩ :=
        transferFunds_submit_mem env cfg req tx htx
      subst htxeq
      rfl

/-- Witness for C9: the amount NaN passes validation and reaches the
account fetch, and the submitted envelope carries NaN verbatim. -/
theorem invalidAmount_iff_parsefloat_witness :
    (∃ rest, (TransferFunds happyEnv sampleCfg ⟨"SSENDER", "GRECIP", "NaN"⟩).2 =
      NetCall.fetchAccount "GSENDER" :: rest) ∧
    sampleNaNTx.operations = [Operation.payment "GRECIP" "NaN" "USDC" "GISS"] ∧
    goParseFloat "NaN" = some .nan ∧ goFloatLE0 .nan = false := by
  have h := invalidAmount_iff_parsefloat happyEnv sampleCfg ⟨"SSENDER", "GRECIP", "NaN"⟩
  have h3 := h.2.2 { address := "GSENDER", seed := "SSENDER" } "GRECIP" .nan
    (by decide) (by decide) (by decide) (by decide)
  exact ⟨h3.1, h3.2 sampleNaNTx (by decide), h.2.1.1, h.2.1.2.1⟩

theorem statusOfKind_createErrKind (msg : String) : statusOfKind (createErrKind msg) = 500 := by
  unfold createErrKind
  repeat' split
  all_goals rfl

theorem transferStatus_fetch (e : String) :
    transferStatusCode ("failed to fetch sender account details: " ++ e) =
      statusOfKind (transferErrKind ("failed to fetch sender account details: " ++ e)) := by
  have n1 := str_append_ne "failed to fetch sender account details: " e
    "invalid sender secret key" (by decide)
  have n2 := str_append_ne "failed to fetch sender account details: " e
    "invalid recipient public key" (by decide)
  have n3 := str_append_ne "failed to fetch sender account details: " e
    "invalid amount: must be a positive number" (by decide)
  have p1 := strHasPre_append "failed to fetch sender account details: " e
  simp [transferStatusCode, transferErrKind, statusOfKind, n1, n2, n3, p1]

theorem transferStatus_build (e : String) :
    transferStatusCode ("failed to build transaction: " ++ e) =
      statusOfKind (transferErrKind ("failed to build transaction: " ++ e)) := by
  have n1 := str_append_ne "failed to build transaction: " e
    "invalid sender secret key" (by decide)
  have n2 := str_append_ne "failed to build transaction: " e
    "invalid recipient public key" (by decide)
  have n3 := str_append_ne "failed to build transaction: " e
    "invalid amount: must be a positive number" (by decide)
  have q1 := strHasPre_append_false "failed to fetch sender account details: "
    "failed to build transaction: " e (by decide)
  have p1 := strHasPre_append "failed to build transaction: " e
  simp [transferStatusCode, transferErrKind, statusOfKind, n1, n2, n3, q1, p1]

theorem transferStatus_sign (e : String) :
    transferStatusCode ("failed to sign transaction: " ++ e) =
      statusOfKind (transferErrKind ("failed to sign transaction: " ++ e)) := by
  have n1 := str_append_ne "failed to sign transaction: " e
    "invalid sender secret key" (by decide)
  have n2 := str_append_ne "failed to sign transaction: " e
    "invalid recipient public key" (by decide)
  have n3 := str_append_ne "failed to sign transaction: " e
    "invalid amount: must be a positive number" (by decide)
  have q1 := strHasPre_append_false "failed to fetch sender account details: "
    "failed to sign transaction: " e (by decide)
  have q2 := strHasPre_append_false "failed to build transaction: "
    "failed to sign transaction: " e (by decide)
  have p1 := strHasPre_append "failed to sign transaction: " e
  simp [transferStatusCode, transferErrKind, statusOfKind, n1, n2, n3, q1, q2, p1]

theorem transferStatus_submit (e : String) :
    transferStatusCode ("failed to submit transaction: " ++ e) =
      statusOfKind (transferErrKind ("failed to submit transaction: " ++ e)) := by
  have n1 := str_append_ne "failed to submit transaction: " e
    "invalid sender secret key" (by decide)
  have n2 := str_append_ne "failed to submit transaction: " e
    "invalid recipient public key" (by decide)
  have n3 := str_append_ne "failed to submit transaction: " e
    "invalid amount: must be a positive number" (by decide)
  have q1 := strHasPre_append_false "failed to fetch sender account details: "
    "failed to submit transaction: " e (by decide)
  have q2 := strHasPre_append_false "failed to build transaction: "
    "failed to submit transaction: " e (by decide)
  have q3 := strHasPre_append_false "failed to sign transaction: "
    "failed to submit transaction: " e (by decide)
  have p1 := strHasPre_append "failed to submit transaction: " e
  simp [transferStatusCode, transferErrKind, statusOfKind, n1, n2, n3, q1, q2, q3, p1]

theorem transferStatus_rejected (e : String) :
    transferStatusCode ("transaction failed: " ++ e) =
      statusOfKind (transferErrKind ("transaction failed: " ++ e)) := by
  have n1 := str_append_ne "transaction failed: " e
    "invalid sender secret key" (by decide)
  have n2 := str_append_ne "transaction failed: " e
    "invalid recipient public key" (by decide)
  have n3 := str_append_ne "transaction failed: " e
    "invalid amount: must be a positive number" (by decide)
  have q1 := strHasPre_append_false "failed to fetch sender account details: "
    "transaction failed: " e (by decide)
  have q2 := strHasPre_append_false "failed to build transaction: "
    "transaction failed: " e (by decide)
  have q3 := strHasPre_append_false "failed to sign transaction: "
    "transaction failed: " e (by decide)
  have q4 := strHasPre_append_false "failed to submit transaction: "
    "transaction failed: " e (by decide)
  have p1 := strHasPre_append "transaction failed: " e
  simp [transferStatusCode, transferErrKind, statusOfKind, n1, n2, n3, q1, q2, q3, q4, p1]

theorem detailsStatus_fetch (e : String) :
    getWalletDetailsStatusCode ("failed to fetch wallet details: " ++ e) =
      statusOfKind (detailsErrKind ("failed to fetch wallet details: " ++ e)) := by
  have n1 := str_append_ne "failed to fetch wallet details: " e
    "invalid public key format" (by decide)
  have p1 := strHasPre_append "failed to fetch wallet details: " e
  simp [getWalletDetailsStatusCode, detailsErrKind, statusOfKind, n1, p1]

/-- C7 counterexample: the claim that every caller branches on the error
kind and never on the message text is false for the code. The messages
invalid public key format (the invalid-address error of GetWalletDetails)
and invalid sender secret key (the invalid-secret error of TransferFunds)
both have kind InvalidKey, yet the details controller maps the first to
status 400 and the second to status 500, and the transfer controller maps
them the other way around: each controller decision is a function of the
exact message text, not of the kind. -/
theorem controllers_branch_on_text_counterexample :
    detailsErrKind "invalid public key format" = ErrKind.invalidKey ∧
    transferErrKind "invalid sender secret key" = ErrKind.invalidKey ∧
    getWalletDetailsStatusCode "invalid public key format" = 400 ∧
    getWalletDetailsStatusCode "invalid sender secret key" = 500 ∧
    transferStatusCode "invalid sender secret key" = 400 ∧
    transferStatusCode "invalid public key format" = 500 := by decide

/-- C7 amended: service errors are plain message strings and the
controllers compare the message text against fixed constants; restricted
to the errors each endpoint can actually return, the chosen status
provably factors through the closed kind classification. -/
theorem controller_status_factors_through_kind :
    (∀ env cfg req res tr, TransferFunds env cfg req = (res, tr) →
      ∀ msg, res = .error msg →
        transferStatusCode msg = statusOfKind (transferErrKind msg)) ∧
    (∀ env pk res tr, GetWalletDetails env pk = (res, tr) →
      ∀ msg, res = .error msg →
        getWalletDetailsStatusCode msg = statusOfKind (detailsErrKind msg)) ∧
    (∀ env cfg res tr, CreateWallet env cfg = (res, tr) →
      ∀ msg, res = .error msg →
        createWalletStatusCode msg = statusOfKind (createErrKind msg)) := by
  refine ⟨?_, ?_, ?_⟩
  · intro env cfg req res tr h msg hres
    unfold TransferFunds at h
    simp only [] at h
    repeat' split at h
    all_goals simp only [Prod.mk.injEq] at h
    all_goals first
      | exact Except.noConfusion (h.1.trans hres)
      | (have hm := Except.error.inj (h.1.trans hres)
         subst hm
         first
           | decide
           | exact transferStatus_fetch _
           | exact transferStatus_build _
           | exact transferStatus_sign _
           | exact transferStatus_submit _
           | exact transferStatus_rejected _)
  · intro env pk res tr h msg hres
    unfold GetWalletDetails at h
    repeat' split at h
    all_goals simp only [Prod.mk.injEq] at h
    all_goals first
      | exact Except.noConfusion (h.1.trans hres)
      | (have hm := Except.error.inj (h.1.trans hres)
         subst hm
         first
           | decide
           | exact detailsStatus_fetch _)
  · intro env cfg res tr h msg hres
    exact (statusOfKind_createErrKind msg).symm

/-- Witness for the C7 amended theorem at a concrete erroring request. -/
theorem controller_status_factors_through_kind_witness :
    transferStatusCode "invalid sender secret key" =
      statusOfKind (transferErrKind "invalid sender secret key") :=
  controller_status_factors_through_kind.1 happyEnv sampleCfg
    ⟨"BADSECRET", "GRECIP", "10"⟩ (.error "invalid sender secret key") [] rfl
    "invalid sender secret key" rfl

end StellarWallet
